import Mathlib

/-!
Shallow embedding of the pagination and construction logic of
`bamboo_api/api.py` and `bitbucket_api/api.py` (python-bamboo-api).

The paginated list methods are Python generators driving repeated HTTP
fetches.  We embed one traversal of such a generator as a fuel-indexed
recursion over an abstract fetch oracle `Oracle : Nat → Nat → Except PyErr
Page` standing for `self._get_response(path, qs)` followed by the JSON
decoding: given the requested `start-index` and `max-result` it either
fails (a raised exception from the HTTP layer) or produces the decoded
collection object (`Page`).  A run records the yielded items, the trace of
successfully fetched pages (paired with the start index requested for
each), the number of fetch attempts, and how the traversal ended.
-/

namespace BambooApi

/-- One decoded paged collection from a response body, e.g. `response['plans']`:
`items` is the item array (`plans['plan']`), `size` the field `'size'`,
`maxResult` the field `'max-result'`, `startIndex` the field `'start-index'`.
Items are opaque records, modelled as `Nat` identifiers. -/
structure Page where
  items : List Nat
  size : Nat
  maxResult : Nat
  startIndex : Nat
deriving Repr, DecidableEq

/-- Python exceptions relevant to the embedded code paths. -/
inductive PyErr where
  | attributeError
  | nameError
  | typeError
  | valueError
  | fetchError (code : Nat)
deriving Repr, DecidableEq

/-- How a traversal of a paginated generator ended. -/
inductive Outcome where
  /-- the `while` loop exited (guard false or `break`): clean end of iteration -/
  | done
  /-- an exception propagated to the consumer -/
  | failed (e : PyErr)
  /-- fuel exhausted: the loop was still running -/
  | fuelOut
deriving Repr, DecidableEq

/-- The observable result of advancing a paginated generator to the end:
items yielded in order, successfully fetched pages in order (with the
start index that was requested for each), total fetch attempts, outcome. -/
structure RunResult where
  items : List Nat
  trace : List (Nat × Page)
  fetchCalls : Nat
  outcome : Outcome
deriving Repr, DecidableEq

/-- Abstract fetch capability: `oracle start_index max_result` models
`self._get_response(path, qs)` plus JSON decoding of the collection. -/
abbrev Oracle := Nat → Nat → Except PyErr Page

/-- The paged loop shared verbatim (up to JSON key names) by
`plan_get_list` (api.py lines 308-320), `plan_get_branches` (342-354),
`build_get_results` (423-435), `build_get_branch_results` (482-494):

    size = 1
    while qs['start-index'] < size:
        response = self._get_response(path, qs).json()
        coll = response[...]
        size = coll['size']
        for r in coll[...]:
            yield r
        qs['start-index'] += coll['max-result']

Arguments: `start` is `qs['start-index']`, `size` the loop variable
(sentinel 1 at entry), `maxr` is `qs['max-result']` (constant), `fuel`
bounds the number of iterations (the source loop has no such bound). -/
def pagedLoop (oracle : Oracle) (maxr : Nat) : Nat → Nat → Nat → RunResult
  | start, size, 0 =>
    if start < size then ⟨[], [], 0, Outcome.fuelOut⟩
    else ⟨[], [], 0, Outcome.done⟩
  | start, size, f + 1 =>
    if start < size then
      match oracle start maxr with
      | Except.error e => ⟨[], [], 1, Outcome.failed e⟩
      | Except.ok p =>
        let rest := pagedLoop oracle maxr (start + p.maxResult) p.size f
        ⟨p.items ++ rest.items, (start, p) :: rest.trace,
          1 + rest.fetchCalls, rest.outcome⟩
    else ⟨[], [], 0, Outcome.done⟩

/-- `plan_get_list(self, expand=None, max_result=25, start_index=0)`,
api.py lines 294-320: the paged loop over `response['plans']`. -/
def plan_get_list (oracle : Oracle) (max_result start_index fuel : Nat) : RunResult :=
  pagedLoop oracle max_result start_index 1 fuel

/-- `plan_get_branches(self, planKey, enabled_only=False, max_result=25,
start_index=0)`, api.py lines 323-354: the paged loop over
`response['branches']`. -/
def plan_get_branches (oracle : Oracle) (max_result start_index fuel : Nat) : RunResult :=
  pagedLoop oracle max_result start_index 1 fuel

/-- `build_get_results(self, planKey=None, build_number=None, expand=None,
max_result=25, start_index=0)`, api.py lines 405-435: the paged loop over
`response['results']`. -/
def build_get_results (oracle : Oracle) (max_result start_index fuel : Nat) : RunResult :=
  pagedLoop oracle max_result start_index 1 fuel

/-- Valid `build_state` values accepted by `build_get_branch_results`
(api.py line 474). -/
def valid_build_states : List String := ["Successful", "Failed", "Unknown"]

/-- `build_get_branch_results(self, planKey, ..., build_state=None,
max_result=25, start_index=0)`, api.py lines 439-494: validates
`build_state` (raising `ValueError` on an invalid value, line 476) and
then runs the paged loop over `response['results']`. -/
def build_get_branch_results (oracle : Oracle) (build_state : Option String)
    (max_result start_index fuel : Nat) : RunResult :=
  match build_state with
  | none => pagedLoop oracle max_result start_index 1 fuel
  | some bs =>
    if valid_build_states.contains bs then
      pagedLoop oracle max_result start_index 1 fuel
    else ⟨[], [], 0, Outcome.failed PyErr.valueError⟩

/-- The loop of `environment_get_results(self, environment_id,
max_result=25, start_index=0)`, api.py lines 279-291:

    size = 1
    while qs['start-index'] < size:
        response = self._get_response(path, qs)
        response.raise_for_status()
        size = response.json()['size']
        for r in response['results'].json():
            yield r
        qs['start-index'] += response['max-result']

On a successful fetch, `response['results']` subscripts the
`requests.Response` object itself (not the decoded JSON), which raises
`TypeError` before anything is yielded; so each entered iteration either
propagates the fetch failure or raises `TypeError`. -/
def envLoop (oracle : Oracle) (maxr start size fuel : Nat) : RunResult :=
  if start < size then
    match fuel with
    | 0 => ⟨[], [], 0, Outcome.fuelOut⟩
    | _ + 1 =>
      match oracle start maxr with
      | Except.error e => ⟨[], [], 1, Outcome.failed e⟩
      | Except.ok p => ⟨[], [(start, p)], 1, Outcome.failed PyErr.typeError⟩
  else ⟨[], [], 0, Outcome.done⟩

/-- `environment_get_results`, api.py lines 265-291. -/
def environment_get_results (oracle : Oracle) (max_result start_index fuel : Nat) : RunResult :=
  envLoop oracle max_result start_index 1 fuel

/-- The loop of `build_get_list`, api.py lines 227-246:

    size = 1
    while size:
        response = self._get_response(path, qs).json()
        results = response['results']
        size = results['size']
        if results['start-index'] < qs['start-index']:
            break
        for r in results['result']:
            yield r
        qs['start-index'] += size

Note the guard is on `size` (truthy iff nonzero), the drift check fires
only when the reported start index is strictly below the requested one,
and the advance is by `size` (the field `'size'`), not by the item count.
This loop is unreachable in the source: `build_get_list` raises
`NameError` first (see `build_get_list` below). -/
def buildLoop (oracle : Oracle) (maxr : Nat) : Nat → Nat → Nat → RunResult
  | _start, size, 0 =>
    if size ≠ 0 then ⟨[], [], 0, Outcome.fuelOut⟩
    else ⟨[], [], 0, Outcome.done⟩
  | start, size, f + 1 =>
    if size ≠ 0 then
      match oracle start maxr with
      | Except.error e => ⟨[], [], 1, Outcome.failed e⟩
      | Except.ok p =>
        if p.startIndex < start then
          ⟨[], [(start, p)], 1, Outcome.done⟩
        else
          let rest := buildLoop oracle maxr (start + p.size) p.size f
          ⟨p.items ++ rest.items, (start, p) :: rest.trace,
            1 + rest.fetchCalls, rest.outcome⟩
    else ⟨[], [], 0, Outcome.done⟩

/-- Names resolvable inside the body of `build_get_list(self, key=None,
labels=None, expand=None, max_result=25, start_index=0)` (api.py lines
200-246): its parameters and the local variables it assigns. -/
def buildGetListBoundNames : List String :=
  ["self", "key", "labels", "expand", "max_result", "start_index",
   "qs", "path", "size", "response", "results", "r"]

/-- Module-level names of `bamboo_api/api.py` (its imports and the class),
also resolvable from inside any of its function bodies. -/
def bambooModuleGlobals : List String :=
  ["getmembers", "pprint", "BeautifulSoup", "html", "os", "requests",
   "BambooAPIClient"]

/-- `build_get_list`, api.py lines 200-246.  Before the loop, line 219
evaluates `if planKey:`; the name `planKey` is neither a parameter
(the parameter is `key`), nor an assigned local, nor a module global, so
advancing the generator raises `NameError` before any fetch.  The loop
(lines 227-246) is embedded as `buildLoop` and is reached only in the
counterfactual in which `planKey` resolves. -/
def build_get_list (oracle : Oracle) (max_result start_index fuel : Nat) : RunResult :=
  if (buildGetListBoundNames ++ bambooModuleGlobals).contains "planKey" then
    buildLoop oracle max_result start_index 1 fuel
  else ⟨[], [], 0, Outcome.failed PyErr.nameError⟩

/-- Class attribute names of `BambooAPIClient` (api.py lines 15-51: the
constants, note the misspelt `DEFAULTlHOST` on line 20) together with its
method names, i.e. every name `self.<name>` can resolve against the class
during `__init__` (at that point the instance dict holds only `_session`
and `verify`-related fields already assigned). -/
def bambooClassAttrNames : List String :=
  ["DEFAULTlHOST", "DEFAULT_PORT", "API_PREFIX", "PROJECTS_SERVICE",
   "PROJECT_SERVICE", "PROJECT_CREATE", "PROJECT_PERMISSION_GROUP",
   "USERGROUP_CREATE", "USERGROUP_CHANGEUSER", "REPO_LIST", "REPO_ADD",
   "REPO_SEARCH_STASH", "REPO_SEARCH_STASH_BRANCHES", "BUILD_SERVICE",
   "DEPLOY_SERVICE", "ENVIRONMENT_SERVICE", "PLAN_SERVICE", "QUEUE_SERVICE",
   "RESULT_SERVICE", "SERVER_SERVICE", "BFL_ACTION", "BRANCH_SERVICE",
   "BRANCH_RESULT_SERVICE", "DELETE_ACTION",
   "__init__", "_get_response", "_post_response", "_put_response",
   "_make_url", "_build_expand", "build_get_by_label", "build_get_list",
   "deployment_get", "environment_get_results", "plan_get_list",
   "plan_get_branches", "plan_delete", "queue_build", "queue_get_list",
   "build_get_results", "build_get_branch_results", "project_get_list",
   "project_get_by_key", "isProject", "project_new",
   "project_permissions_by_group", "usergroup_new", "usergroup_set_members",
   "server_pause", "server_resume", "repos_get_list", "repos_search_stash",
   "repos_search_stash_branches", "repos_create_linked_stash"]

/-- Class attribute and method names of `BitbucketAPIClient`
(bitbucket_api/api.py lines 15-194; the misspelt `DEFAULTlHOST` is on
line 20). -/
def bitbucketClassAttrNames : List String :=
  ["DEFAULTlHOST", "DEFAULT_PORT", "PREFIX", "PROJECTS_SERVICE",
   "PROJECT_SERVICE", "PROJECT_AVATAR", "USER", "GROUP", "GROUP_ADD_USER",
   "GROUP_REMOVE_USER",
   "__init__", "_get_response", "_post_response", "_put_response",
   "_make_url", "_build_expand", "project_get_list", "project_get_by_key",
   "isProject", "group_get_by_key", "isGroup"]

/-- Python attribute lookup `self.<n>` against a class: succeeds iff the
class defines the name, otherwise raises `AttributeError`. -/
def classGetAttr (attrs : List String) (n : String) : Except PyErr Unit :=
  if attrs.contains n then Except.ok () else Except.error PyErr.attributeError

/-- Connection fields set by a successful `__init__` (`_host`, `_port`,
`_url`; `_prefix` is omitted as it plays no role in the claims).  `none`
models Python `None`. -/
structure ClientState where
  host : Option String
  port : Option Nat
  url : Option String
deriving Repr, DecidableEq

/-- `__init__(self, host=None, port=None, user=None, password=None,
prefix='', verify=True, cert=None, url=None)` of both clients
(bamboo api.py lines 56-79, bitbucket api.py lines 36-59), specialised to
the fields the claims concern.  `Option` models Python truthiness of the
arguments (`none` = falsy).  With a truthy `url` the connection fields are
set from it (lines 63-67); otherwise line 70 runs
`self._host = host or self.DEFAULT_HOST`, whose attribute lookup is
modelled by `classGetAttr`; were it to succeed it would produce the class
default host constant, and line 71 runs
`self._port = port or self.DEFAULT_PORT` (class constant 8085). -/
def clientInit (attrs : List String) (host : Option String) (port : Option Nat)
    (url : Option String) : Except PyErr ClientState :=
  match url with
  | some u => Except.ok ⟨none, none, some u⟩
  | none =>
    match (match host with
           | some h => Except.ok h
           | none =>
             match classGetAttr attrs "DEFAULT_HOST" with
             | Except.ok _ => Except.ok "http://localhost"
             | Except.error e => Except.error e) with
    | Except.error e => Except.error e
    | Except.ok h =>
      match (match port with
             | some p => Except.ok p
             | none =>
               match classGetAttr attrs "DEFAULT_PORT" with
               | Except.ok _ => Except.ok 8085
               | Except.error e => Except.error e) with
      | Except.error e => Except.error e
      | Except.ok p => Except.ok ⟨some h, some p, none⟩

/-- `BambooAPIClient.__init__`, api.py lines 56-79. -/
def bambooInit (host : Option String) (port : Option Nat) (url : Option String) :
    Except PyErr ClientState :=
  clientInit bambooClassAttrNames host port url

/-- `BitbucketAPIClient.__init__`, bitbucket_api/api.py lines 36-59. -/
def bitbucketInit (host : Option String) (port : Option Nat) (url : Option String) :
    Except PyErr ClientState :=
  clientInit bitbucketClassAttrNames host port url

/-- A list of pages is contiguous when each page's reported start index
equals the previous page's reported start index plus the previous page's
returned item count. -/
def contiguousPages : List Page → Bool
  | p :: q :: rest =>
    (q.startIndex == p.startIndex + p.items.length) && contiguousPages (q :: rest)
  | _ => true

/-- Each fetch in the trace was requested at the previous fetch's
requested index plus the previous page's `max-result` field. -/
def advancesByMaxResult : List (Nat × Page) → Bool
  | a :: b :: rest =>
    (b.1 == a.1 + a.2.maxResult) && advancesByMaxResult (b :: rest)
  | _ => true

/-- Each fetch in the trace was requested at the previous fetch's
requested index plus the previous page's `size` field. -/
def advancesBySize : List (Nat × Page) → Bool
  | a :: b :: rest =>
    (b.1 == a.1 + a.2.size) && advancesBySize (b :: rest)
  | _ => true

/-- The start index the paged loop requests after the given trace of
accepted pages (its initial request when the trace is empty). -/
def nextRequested (start : Nat) : List (Nat × Page) → Nat
  | [] => start
  | a :: l => nextRequested (a.1 + a.2.maxResult) l

/-- Rewrite every page's reported start index delivered by an oracle. -/
def setIdx (oracle : Oracle) (g : Nat → Nat → Nat) : Oracle := fun s m =>
  match oracle s m with
  | Except.ok p => Except.ok { p with startIndex := g s m }
  | Except.error e => Except.error e

/-- A paginated generator on this oracle diverges: no amount of fuel makes
the traversal end. -/
def planDiverges (oracle : Oracle) (maxr start : Nat) : Prop :=
  ∀ fuel, (plan_get_list oracle maxr start fuel).outcome = Outcome.fuelOut

/-- Test server: two full pages of two items each (start indices 0 and 2,
total 4), empty afterwards. -/
def c1Oracle : Oracle := fun s _ =>
  if s = 0 then Except.ok ⟨[10, 11], 4, 2, 0⟩
  else if s = 2 then Except.ok ⟨[12, 13], 4, 2, 2⟩
  else Except.ok ⟨[], 0, 2, s⟩

/-- Test server: every page holds one item but reports `max-result` 25 and
total size 100. -/
def c2Oracle : Oracle := fun _ _ => Except.ok ⟨[7], 100, 25, 0⟩

/-- Test server: the first page reports start index 999 (drifted), later
requests are exhausted. -/
def c3Oracle : Oracle := fun s _ =>
  if s = 0 then Except.ok ⟨[5], 1, 25, 999⟩ else Except.ok ⟨[], 0, 25, s⟩

/-- Test server: a page reporting start index 3, one item, size 7. -/
def c3wOracle : Oracle := fun _ _ => Except.ok ⟨[9], 7, 25, 3⟩

/-- Test server: the first page is empty but reports total size 10 and
`max-result` 5; later requests are exhausted. -/
def c4Oracle : Oracle := fun s _ =>
  if s = 0 then Except.ok ⟨[], 10, 5, 0⟩ else Except.ok ⟨[], 0, 5, s⟩

/-- Test server: one item, size 2, `max-result` 5. -/
def c4w1Oracle : Oracle := fun _ _ => Except.ok ⟨[1], 2, 5, 0⟩

/-- Test server: one item, size 0. -/
def c4w2Oracle : Oracle := fun _ _ => Except.ok ⟨[4], 0, 25, 0⟩

/-- Test server: a good first page at start index 0, every later fetch
fails. -/
def c5Oracle : Oracle := fun s _ =>
  if s = 0 then Except.ok ⟨[1, 2], 50, 2, 0⟩
  else Except.error (PyErr.fetchError 7)

/-- Test server: empty pages reporting size 0 and `max-result` 0. -/
def c6Oracle : Oracle := fun s _ => Except.ok ⟨[], 0, 0, s⟩

/-- Test server: every page has 0 returned items (exhaustion signal on the
very first page) but reports total size 10 and echoes `max-result` 0. -/
def c7Oracle : Oracle := fun s _ => Except.ok ⟨[], 10, 0, s⟩

/-- Test server: every page has one item, size 3, `max-result` 2. -/
def c7wOracle : Oracle := fun s _ => Except.ok ⟨[s], 3, 2, s⟩

/-- Test server: empty exhausted pages. -/
def c10Oracle : Oracle := fun s _ => Except.ok ⟨[], 0, 0, s⟩

lemma pagedLoop_items_join (oracle : Oracle) (maxr : Nat) :
    ∀ fuel start size, (pagedLoop oracle maxr start size fuel).items =
      ((pagedLoop oracle maxr start size fuel).trace.map (fun t => t.2.items)).flatten := by
  intro fuel
  induction fuel with
  | zero =>
    intro start size
    by_cases h : start < size <;> simp [pagedLoop, h]
  | succ f ih =>
    intro start size
    by_cases h : start < size
    · cases hp : oracle start maxr with
      | error e => simp [pagedLoop, h, hp]
      | ok p => simp [pagedLoop, h, hp, ih]
    · simp [pagedLoop, h]

lemma pagedLoop_trace_head (oracle : Oracle) (maxr : Nat) :
    ∀ fuel start size x,
      (pagedLoop oracle maxr start size fuel).trace.head? = some x → x.1 = start := by
  intro fuel start size x
  cases fuel with
  | zero =>
    by_cases h : start < size <;> simp [pagedLoop, h]
  | succ f =>
    by_cases h : start < size
    · cases hp : oracle start maxr with
      | error e => simp [pagedLoop, h, hp]
      | ok p =>
        simp only [pagedLoop, h, hp, if_pos, List.head?_cons]
        intro hx
        cases hx
        rfl
    · simp [pagedLoop, h]

lemma advancesByMaxResult_cons (a : Nat × Page) (l : List (Nat × Page))
    (hhead : ∀ b, l.head? = some b → b.1 = a.1 + a.2.maxResult)
    (hl : advancesByMaxResult l = true) :
    advancesByMaxResult (a :: l) = true := by
  cases l with
  | nil => simp [advancesByMaxResult]
  | cons b rest =>
    have hb : b.1 = a.1 + a.2.maxResult := hhead b rfl
    simp [advancesByMaxResult, hb, hl]

lemma pagedLoop_advances (oracle : Oracle) (maxr : Nat) :
    ∀ fuel start size,
      advancesByMaxResult (pagedLoop oracle maxr start size fuel).trace = true := by
  intro fuel
  induction fuel with
  | zero =>
    intro start size
    by_cases h : start < size <;> simp [pagedLoop, h, advancesByMaxResult]
  | succ f ih =>
    intro start size
    by_cases h : start < size
    · cases hp : oracle start maxr with
      | error e => simp [pagedLoop, h, hp, advancesByMaxResult]
      | ok p =>
        simp only [pagedLoop, h, if_pos, hp]
        exact advancesByMaxResult_cons _ _
          (fun b hb => pagedLoop_trace_head oracle maxr f _ _ b hb)
          (ih (start + p.maxResult) p.size)
    · simp [pagedLoop, h, advancesByMaxResult]

lemma buildLoop_trace_head (oracle : Oracle) (maxr : Nat) :
    ∀ fuel start size x,
      (buildLoop oracle maxr start size fuel).trace.head? = some x → x.1 = start := by
  intro fuel start size x
  cases fuel with
  | zero =>
    by_cases h : size ≠ 0 <;> simp [buildLoop, h]
  | succ f =>
    by_cases h : size ≠ 0
    · cases hp : oracle start maxr with
      | error e => simp [buildLoop, h, hp]
      | ok p =>
        by_cases hd : p.startIndex < start
        · intro hx
          simp [buildLoop, h, hp, hd] at hx
          subst hx
          rfl
        · intro hx
          simp [buildLoop, h, hp, hd] at hx
          subst hx
          rfl
    · simp [buildLoop, h]

lemma advancesBySize_cons (a : Nat × Page) (l : List (Nat × Page))
    (hhead : ∀ b, l.head? = some b → b.1 = a.1 + a.2.size)
    (hl : advancesBySize l = true) :
    advancesBySize (a :: l) = true := by
  cases l with
  | nil => simp [advancesBySize]
  | cons b rest =>
    have hb : b.1 = a.1 + a.2.size := hhead b rfl
    simp [advancesBySize, hb, hl]

lemma buildLoop_advances (oracle : Oracle) (maxr : Nat) :
    ∀ fuel start size,
      advancesBySize (buildLoop oracle maxr start size fuel).trace = true := by
  intro fuel
  induction fuel with
  | zero =>
    intro start size
    by_cases h : size ≠ 0 <;> simp [buildLoop, h, advancesBySize]
  | succ f ih =>
    intro start size
    by_cases h : size ≠ 0
    · cases hp : oracle start maxr with
      | error e => simp [buildLoop, h, hp, advancesBySize]
      | ok p =>
        by_cases hd : p.startIndex < start
        · simp [buildLoop, h, hp, hd, advancesBySize]
        · have hcons := advancesBySize_cons (start, p)
            (buildLoop oracle maxr (start + p.size) p.size f).trace
            (fun b hb => buildLoop_trace_head oracle maxr f (start + p.size) p.size b hb)
            (ih (start + p.size) p.size)
          simpa [buildLoop, h, hp, hd] using hcons
    · simp [buildLoop, h, advancesBySize]

lemma nextRequested_cons (s : Nat) (a : Nat × Page) (l : List (Nat × Page)) :
    nextRequested s (a :: l) = nextRequested (a.1 + a.2.maxResult) l := rfl

lemma pagedLoop_failed (oracle : Oracle) (maxr : Nat) :
    ∀ fuel start size e,
      (pagedLoop oracle maxr start size fuel).outcome = Outcome.failed e →
      (pagedLoop oracle maxr start size fuel).fetchCalls =
          (pagedLoop oracle maxr start size fuel).trace.length + 1
        ∧ oracle (nextRequested start (pagedLoop oracle maxr start size fuel).trace) maxr
            = Except.error e := by
  intro fuel
  induction fuel with
  | zero =>
    intro start size e h
    by_cases hg : start < size <;> simp [pagedLoop, hg] at h
  | succ f ih =>
    intro start size e h
    by_cases hg : start < size
    · cases hp : oracle start maxr with
      | error e2 =>
        simp [pagedLoop, hg, hp] at h ⊢
        rw [h] at hp
        simpa [nextRequested] using hp
      | ok p =>
        simp only [pagedLoop, hg, if_pos, hp] at h ⊢
        obtain ⟨h1, h2⟩ := ih (start + p.maxResult) p.size e h
        refine ⟨by simpa [h1] using by omega, ?_⟩
        rw [nextRequested_cons]
        exact h2
    · simp [pagedLoop, hg] at h

lemma pagedLoop_terminates (oracle : Oracle) (maxr T : Nat)
    (hok : ∀ s m, ∃ p, oracle s m = Except.ok p ∧ 1 ≤ p.maxResult ∧ p.size ≤ T) :
    ∀ fuel start size, size ≤ start + fuel → T ≤ start + fuel →
      (pagedLoop oracle maxr start size fuel).outcome = Outcome.done := by
  intro fuel
  induction fuel with
  | zero =>
    intro start size hsz _hT
    have hg : ¬ start < size := by omega
    simp [pagedLoop, hg]
  | succ f ih =>
    intro start size hsz hT
    by_cases hg : start < size
    · obtain ⟨p, hp, h1, h2⟩ := hok start maxr
      simp only [pagedLoop, hg, if_pos, hp]
      exact ih (start + p.maxResult) p.size (by omega) (by omega)
    · simp [pagedLoop, hg]

lemma pagedLoop_setIdx (oracle : Oracle) (g : Nat → Nat → Nat) (maxr : Nat) :
    ∀ fuel start size,
      (pagedLoop (setIdx oracle g) maxr start size fuel).items =
          (pagedLoop oracle maxr start size fuel).items
        ∧ (pagedLoop (setIdx oracle g) maxr start size fuel).fetchCalls =
            (pagedLoop oracle maxr start size fuel).fetchCalls
        ∧ (pagedLoop (setIdx oracle g) maxr start size fuel).outcome =
            (pagedLoop oracle maxr start size fuel).outcome := by
  intro fuel
  induction fuel with
  | zero =>
    intro start size
    by_cases hg : start < size <;> simp [pagedLoop, hg]
  | succ f ih =>
    intro start size
    by_cases hg : start < size
    · cases hp : oracle start maxr with
      | error e => simp [pagedLoop, hg, hp, setIdx]
      | ok p =>
        obtain ⟨h1, h2, h3⟩ := ih (start + p.maxResult) p.size
        simp [pagedLoop, hg, hp, setIdx, h1, h2, h3]
    · simp [pagedLoop, hg]

lemma pagedLoop_stop (oracle : Oracle) (maxr start size fuel : Nat)
    (h : ¬ start < size) :
    pagedLoop oracle maxr start size fuel = ⟨[], [], 0, Outcome.done⟩ := by
  cases fuel <;> simp [pagedLoop, h]

lemma buildLoop_stop (oracle : Oracle) (maxr start size fuel : Nat)
    (h : size = 0) :
    buildLoop oracle maxr start size fuel = ⟨[], [], 0, Outcome.done⟩ := by
  cases fuel <;> simp [buildLoop, h]

lemma c7Oracle_fuelOut : ∀ fuel size, 0 < size →
    (pagedLoop c7Oracle 25 0 size fuel).outcome = Outcome.fuelOut := by
  intro fuel
  induction fuel with
  | zero =>
    intro size h
    simp [pagedLoop, h]
  | succ f ih =>
    intro size h
    have hp : c7Oracle 0 25 = Except.ok ⟨[], 10, 0, 0⟩ := rfl
    simp only [pagedLoop, h, if_pos, hp]
    simpa using ih 10 (by omega)

/-- C1: for every sequence of fetched pages whose start indices are
strictly increasing and contiguous (each page's start index equals the
previous page's start index plus its returned item count), the paginated
list methods `plan_get_list` and `build_get_results` yield exactly the
concatenation of each fetched page's items, in page order and intra-page
order, with no reordering, duplication, or omission. -/
theorem c1_yield_is_concatenation (oracle : Oracle) (maxr start fuel : Nat)
    (_hplan : contiguousPages
      ((plan_get_list oracle maxr start fuel).trace.map Prod.snd) = true)
    (_hbuild : contiguousPages
      ((build_get_results oracle maxr start fuel).trace.map Prod.snd) = true) :
    (plan_get_list oracle maxr start fuel).items =
        ((plan_get_list oracle maxr start fuel).trace.map
          (fun t => t.2.items)).flatten
      ∧ (build_get_results oracle maxr start fuel).items =
        ((build_get_results oracle maxr start fuel).trace.map
          (fun t => t.2.items)).flatten :=
  ⟨pagedLoop_items_join oracle maxr fuel start 1,
   pagedLoop_items_join oracle maxr fuel start 1⟩

/-- C1 witness: a concrete two-page contiguous server on which the
hypotheses of `c1_yield_is_concatenation` hold and the conclusion follows
by applying it. -/
theorem c1_witness :
    (contiguousPages
      ((plan_get_list c1Oracle 2 0 10).trace.map Prod.snd) = true)
    ∧ (contiguousPages
      ((build_get_results c1Oracle 2 0 10).trace.map Prod.snd) = true)
    ∧ ((plan_get_list c1Oracle 2 0 10).items =
        ((plan_get_list c1Oracle 2 0 10).trace.map
          (fun t => t.2.items)).flatten
      ∧ (build_get_results c1Oracle 2 0 10).items =
        ((build_get_results c1Oracle 2 0 10).trace.map
          (fun t => t.2.items)).flatten) :=
  ⟨by decide, by decide,
   c1_yield_is_concatenation c1Oracle 2 0 10 (by decide) (by decide)⟩

/-- C2 counterexample: on a server whose first page returns exactly one
item but echoes `max-result` 25, `plan_get_list` requests the second page
at start index 25, not at 0 + 1; so the cursor does not advance by the
returned item count. -/
theorem c2_counterexample :
    ((plan_get_list c2Oracle 25 0 2).trace.map Prod.fst = [0, 25])
    ∧ ((plan_get_list c2Oracle 25 0 2).trace.map
        (fun t => t.2.items.length) = [1, 1])
    ∧ ¬ (25 = 0 + 1) := by decide

/-- C2 amended: after each accepted page the next requested start index
equals the previously requested start index plus the page's reported
`max-result` field (`plan_get_list` and the other `pagedLoop` methods),
respectively plus the page's reported `size` field (the loop of
`build_get_list`) — not the returned item count. -/
theorem c2_advances_by_reported_fields (oracle : Oracle) (maxr start fuel : Nat) :
    advancesByMaxResult (plan_get_list oracle maxr start fuel).trace = true
    ∧ advancesBySize (buildLoop oracle maxr start 1 fuel).trace = true :=
  ⟨pagedLoop_advances oracle maxr fuel start 1,
   buildLoop_advances oracle maxr fuel start 1⟩

/-- C5: if the fetch of page k fails, all items from pages 1..k-1 have
been yielded (the output equals the concatenation of the successfully
fetched pages' items), the failure is propagated to the consumer, and
there is no internal retry: the failing request is the single (k-th)
fetch attempt, made at the cursor's next start index. -/
theorem c5_failure_propagation (oracle : Oracle) (maxr start fuel : Nat)
    (e : PyErr)
    (h : (plan_get_list oracle maxr start fuel).outcome = Outcome.failed e) :
    (plan_get_list oracle maxr start fuel).items =
        ((plan_get_list oracle maxr start fuel).trace.map
          (fun t => t.2.items)).flatten
      ∧ (plan_get_list oracle maxr start fuel).fetchCalls =
        (plan_get_list oracle maxr start fuel).trace.length + 1
      ∧ oracle
          (nextRequested start (plan_get_list oracle maxr start fuel).trace)
          maxr = Except.error e :=
  ⟨pagedLoop_items_join oracle maxr fuel start 1,
   (pagedLoop_failed oracle maxr fuel start 1 e h).1,
   (pagedLoop_failed oracle maxr fuel start 1 e h).2⟩

/-- C5 witness: a server failing from the second page onward satisfies
the hypothesis of `c5_failure_propagation`, which then applies. -/
theorem c5_witness :
    ((plan_get_list c5Oracle 2 0 10).outcome =
        Outcome.failed (PyErr.fetchError 7))
    ∧ ((plan_get_list c5Oracle 2 0 10).items =
        ((plan_get_list c5Oracle 2 0 10).trace.map
          (fun t => t.2.items)).flatten
      ∧ (plan_get_list c5Oracle 2 0 10).fetchCalls =
        (plan_get_list c5Oracle 2 0 10).trace.length + 1
      ∧ c5Oracle
          (nextRequested 0 (plan_get_list c5Oracle 2 0 10).trace)
          2 = Except.error (PyErr.fetchError 7)) :=
  ⟨by decide,
   c5_failure_propagation c5Oracle 2 0 10 (PyErr.fetchError 7) (by decide)⟩

/-- C8: constructing either client with falsy `host` and falsy `url`
raises `AttributeError` before `__init__` completes, because line 70
reads `self.DEFAULT_HOST` while the classes only define `DEFAULTlHOST`;
a client with a default host can never be constructed. -/
theorem c8_default_host_attribute_error (port : Option Nat) :
    bambooInit none port none = Except.error PyErr.attributeError
    ∧ bitbucketInit none port none = Except.error PyErr.attributeError :=
  ⟨rfl, rfl⟩

/-- C9: for every combination of arguments, advancing the generator
returned by `build_get_list` raises `NameError` before any fetch is
performed (0 fetch calls) and before any item is yielded (no items),
because the body references the unbound name `planKey` while the
corresponding parameter is named `key`. -/
theorem c9_build_get_list_name_error (oracle : Oracle) (maxr start fuel : Nat) :
    build_get_list oracle maxr start fuel =
      ⟨[], [], 0, Outcome.failed PyErr.nameError⟩ := rfl

/-- C3 counterexample: on a server whose first page reports start index
999 while the cursor requested 0, `plan_get_list` still yields that
page's item; iteration does not stop on drift. -/
theorem c3_counterexample :
    ((plan_get_list c3Oracle 25 0 5).trace.map
        (fun t => (t.1, t.2.startIndex)) = [(0, 999)])
    ∧ (plan_get_list c3Oracle 25 0 5).items = [5]
    ∧ (plan_get_list c3Oracle 25 0 5).outcome = Outcome.done := by decide

/-- C3 amended: `plan_get_list` (and the other `pagedLoop` methods)
perform no drift check at all — rewriting every reported start index
leaves the yielded items, the number of fetches and the outcome
unchanged.  Only the loop of `build_get_list` reacts to drift, and only
when the reported start index is strictly BELOW the requested one: then
it stops cleanly, yielding nothing from that page and fetching no
further page; when the reported start index is greater than or equal,
the page's items are yielded and iteration continues. -/
theorem c3_drift_handling (oracle : Oracle) (g : Nat → Nat → Nat)
    (maxr start size fuel : Nat) (p : Page)
    (hsz : size ≠ 0) (hp : oracle start maxr = Except.ok p) :
    ((plan_get_list (setIdx oracle g) maxr start fuel).items =
        (plan_get_list oracle maxr start fuel).items)
    ∧ (p.startIndex < start →
        buildLoop oracle maxr start size (fuel + 1) =
          ⟨[], [(start, p)], 1, Outcome.done⟩)
    ∧ (¬ p.startIndex < start →
        (buildLoop oracle maxr start size (fuel + 1)).items =
          p.items ++ (buildLoop oracle maxr (start + p.size) p.size fuel).items) := by
  refine ⟨(pagedLoop_setIdx oracle g maxr fuel start 1).1, ?_, ?_⟩
  · intro hd
    simp [buildLoop, hsz, hp, hd]
  · intro hd
    simp [buildLoop, hsz, hp, hd]

/-- C3 witness: a concrete drifted page (reported start index 3, request
at 5) on which the hypotheses of `c3_drift_handling` hold and the
conclusion follows by applying it. -/
theorem c3_witness :
    ((1 : Nat) ≠ 0)
    ∧ (c3wOracle 5 25 = Except.ok ⟨[9], 7, 25, 3⟩)
    ∧ (((plan_get_list (setIdx c3wOracle (fun _ _ => 0)) 25 5 2).items =
          (plan_get_list c3wOracle 25 5 2).items)
      ∧ ((Page.mk [9] 7 25 3).startIndex < 5 →
          buildLoop c3wOracle 25 5 1 (2 + 1) =
            ⟨[], [(5, Page.mk [9] 7 25 3)], 1, Outcome.done⟩)
      ∧ (¬ (Page.mk [9] 7 25 3).startIndex < 5 →
          (buildLoop c3wOracle 25 5 1 (2 + 1)).items =
            (Page.mk [9] 7 25 3).items ++
              (buildLoop c3wOracle 25 (5 + (Page.mk [9] 7 25 3).size)
                (Page.mk [9] 7 25 3).size 2).items)) :=
  ⟨by decide, rfl,
   c3_drift_handling c3wOracle (fun _ _ => 0) 25 5 1 2 (Page.mk [9] 7 25 3)
     (by decide) rfl⟩

/-- C4 counterexample: on a server whose first page returns 0 items but
reports size 10 and `max-result` 5, `plan_get_list` performs a second
fetch (at start index 5) after the 0-item page: a returned count of 0
does not terminate the iteration. -/
theorem c4_counterexample :
    ((plan_get_list c4Oracle 5 0 9).trace.map
        (fun t => (t.1, t.2.items.length)) = [(0, 0), (5, 0)])
    ∧ (plan_get_list c4Oracle 5 0 9).fetchCalls = 2 := by decide

/-- C4 amended: iteration ends cleanly (no error, exactly one further
fetch and no more) after a fetched page p exactly when the advanced start
index (requested + p's reported `max-result`) reaches p's reported
`size` (`plan_get_list` and the other `pagedLoop` methods), respectively
when p's reported `size` is 0 and the drift check passes (the loop of
`build_get_list`); a returned item count of 0 does not of itself end
iteration. -/
theorem c4_termination_condition (oracle oracle2 : Oracle)
    (maxr maxr2 start start2 size size2 fuel fuel2 : Nat) (p q : Page)
    (hg : start < size) (hp : oracle start maxr = Except.ok p)
    (hstop : p.size ≤ start + p.maxResult)
    (hsz : size2 ≠ 0) (hq : oracle2 start2 maxr2 = Except.ok q)
    (hq0 : q.size = 0) (hdrift : ¬ q.startIndex < start2) :
    pagedLoop oracle maxr start size (fuel + 1) =
      ⟨p.items, [(start, p)], 1, Outcome.done⟩
    ∧ buildLoop oracle2 maxr2 start2 size2 (fuel2 + 1) =
      ⟨q.items, [(start2, q)], 1, Outcome.done⟩ := by
  constructor
  · have hrest := pagedLoop_stop oracle maxr (start + p.maxResult) p.size fuel
      (by omega)
    simp [pagedLoop, hg, hp, hrest]
  · have hrest := buildLoop_stop oracle2 maxr2 (start2 + q.size) q.size fuel2 hq0
    simp [buildLoop, hsz, hq, hdrift, hrest]

/-- C4 witness: concrete last pages (size 2 within reach of `max-result`
5, and size 0 for the build loop) on which the hypotheses of
`c4_termination_condition` hold and the conclusion follows by applying
it. -/
theorem c4_witness :
    ((0 : Nat) < 1)
    ∧ (c4w1Oracle 0 5 = Except.ok ⟨[1], 2, 5, 0⟩)
    ∧ ((Page.mk [1] 2 5 0).size ≤ 0 + (Page.mk [1] 2 5 0).maxResult)
    ∧ ((1 : Nat) ≠ 0)
    ∧ (c4w2Oracle 0 25 = Except.ok ⟨[4], 0, 25, 0⟩)
    ∧ ((Page.mk [4] 0 25 0).size = 0)
    ∧ (¬ (Page.mk [4] 0 25 0).startIndex < 0)
    ∧ (pagedLoop c4w1Oracle 5 0 1 (3 + 1) =
        ⟨(Page.mk [1] 2 5 0).items, [(0, Page.mk [1] 2 5 0)], 1, Outcome.done⟩
      ∧ buildLoop c4w2Oracle 25 0 1 (3 + 1) =
        ⟨(Page.mk [4] 0 25 0).items, [(0, Page.mk [4] 0 25 0)], 1,
          Outcome.done⟩) :=
  ⟨by decide, rfl, by decide, by decide, rfl, by decide, by decide,
   c4_termination_condition c4w1Oracle c4w2Oracle 5 25 0 0 1 1 3 3
     (Page.mk [1] 2 5 0) (Page.mk [4] 0 25 0)
     (by decide) rfl (by decide) (by decide) rfl (by decide)
     (by decide)⟩

/-- C6 counterexample: `plan_get_list` called with `max_result = 0` and
`start_index = 0` performs a fetch — one network call is made, so the
call is not rejected before fetching. -/
theorem c6_counterexample : (plan_get_list c6Oracle 0 0 3).fetchCalls = 1 := by
  decide

/-- C6 amended: no paginated method validates `max_result`:
`plan_get_list` with `max_result = 0` and `start_index = 0` performs at
least one fetch, passing page size 0 through to the server; and while
`build_get_list` does make zero fetch calls and yields nothing, that is
because of its unconditional `NameError`, not a precondition check. -/
theorem c6_no_page_size_validation (oracle : Oracle) (start fuel : Nat) :
    1 ≤ (plan_get_list oracle 0 0 (fuel + 1)).fetchCalls
    ∧ (build_get_list oracle 0 start fuel).fetchCalls = 0
    ∧ (build_get_list oracle 0 start fuel).outcome =
        Outcome.failed PyErr.nameError := by
  refine ⟨?_, rfl, rfl⟩
  cases hp : oracle 0 0 with
  | error e => simp [plan_get_list, pagedLoop, hp]
  | ok p =>
    simp only [plan_get_list, pagedLoop, Nat.zero_lt_one, if_pos, hp]
    omega

/-- C7 counterexample: a server that returns a page with 0 items on the
very first fetch (and every fetch) — well-behaved in the claim's sense,
with declared total 10 bounding the (empty) result set — but echoes
`max-result` 0, makes `plan_get_list` diverge: the requested start index
never increases and no fuel suffices for the loop to end. -/
theorem c7_counterexample :
    (c7Oracle 0 25 = Except.ok ⟨[], 10, 0, 0⟩)
    ∧ planDiverges c7Oracle 25 0 :=
  ⟨rfl, fun fuel => c7Oracle_fuelOut fuel 1 (by omega)⟩

/-- C7 amended: if every fetch succeeds and every returned page reports
`max-result` at least 1 and `size` at most T, then `plan_get_list`
terminates cleanly within T + 1 fetches, because the requested start
index strictly increases (by the reported `max-result`) on every
non-terminal iteration and the loop guard bounds it by the reported
`size` ≤ T.  A server that merely eventually returns a 0-item page need
not cause termination. -/
theorem c7_termination_under_bounds (oracle : Oracle) (maxr T start : Nat)
    (hok : ∀ s m, ∃ p, oracle s m = Except.ok p
      ∧ 1 ≤ p.maxResult ∧ p.size ≤ T) :
    (plan_get_list oracle maxr start (T + 1)).outcome = Outcome.done :=
  pagedLoop_terminates oracle maxr T hok (T + 1) start 1 (by omega) (by omega)

/-- C7 witness: a concrete server with `max-result` 2 and size 3
everywhere satisfies the hypothesis of `c7_termination_under_bounds`,
which then applies. -/
theorem c7_witness :
    (∀ s m, ∃ p, c7wOracle s m = Except.ok p
      ∧ 1 ≤ p.maxResult ∧ p.size ≤ 3)
    ∧ (plan_get_list c7wOracle 25 0 (3 + 1)).outcome = Outcome.done :=
  have h : ∀ s m, ∃ p, c7wOracle s m = Except.ok p
      ∧ 1 ≤ p.maxResult ∧ p.size ≤ 3 :=
    fun s _m => ⟨⟨[s], 3, 2, s⟩, rfl,
      by show (1 : Nat) ≤ 2; omega, by show (3 : Nat) ≤ 3; omega⟩
  ⟨h, c7_termination_under_bounds c7wOracle 25 3 0 h⟩

/-- C10: every call to `plan_get_list`, `plan_get_branches`,
`build_get_results`, `build_get_branch_results` or
`environment_get_results` with `start_index ≥ 1` yields no items and
performs zero fetch calls, because the loop guard compares the requested
start index against a size variable initialised to 1 before the first
fetch. -/
theorem c10_nonzero_start_yields_nothing (oracle : Oracle)
    (build_state : Option String) (maxr start fuel : Nat) (h : 1 ≤ start) :
    plan_get_list oracle maxr start fuel = ⟨[], [], 0, Outcome.done⟩
    ∧ plan_get_branches oracle maxr start fuel = ⟨[], [], 0, Outcome.done⟩
    ∧ build_get_results oracle maxr start fuel = ⟨[], [], 0, Outcome.done⟩
    ∧ (build_get_branch_results oracle build_state maxr start fuel).items = []
    ∧ (build_get_branch_results oracle build_state maxr start fuel).fetchCalls = 0
    ∧ environment_get_results oracle maxr start fuel =
        ⟨[], [], 0, Outcome.done⟩ := by
  have hg : ¬ start < 1 := by omega
  have hstop := pagedLoop_stop oracle maxr start 1 fuel hg
  refine ⟨hstop, hstop, hstop, ?_, ?_, ?_⟩
  · cases build_state with
    | none => simp [build_get_branch_results, hstop]
    | some bs =>
      by_cases hv : bs ∈ valid_build_states <;>
        simp [build_get_branch_results, hv, hstop]
  · cases build_state with
    | none => simp [build_get_branch_results, hstop]
    | some bs =>
      by_cases hv : bs ∈ valid_build_states <;>
        simp [build_get_branch_results, hv, hstop]
  · simp [environment_get_results, envLoop, hg]

/-- C10 witness: the theorem applied at `start_index = 1` on a concrete
server. -/
theorem c10_witness :
    ((1 : Nat) ≤ 1)
    ∧ (plan_get_list c10Oracle 25 1 5 = ⟨[], [], 0, Outcome.done⟩
      ∧ plan_get_branches c10Oracle 25 1 5 = ⟨[], [], 0, Outcome.done⟩
      ∧ build_get_results c10Oracle 25 1 5 = ⟨[], [], 0, Outcome.done⟩
      ∧ (build_get_branch_results c10Oracle none 25 1 5).items = []
      ∧ (build_get_branch_results c10Oracle none 25 1 5).fetchCalls = 0
      ∧ environment_get_results c10Oracle 25 1 5 =
          ⟨[], [], 0, Outcome.done⟩) :=
  ⟨by decide, c10_nonzero_start_yields_nothing c10Oracle none 25 1 5 (by decide)⟩

end BambooApi
